import Mathlib

/-!
Shallow embedding of the MiFincaManager backend (Express routes over a
Drizzle/Postgres schema) and of the client-side filter of the Fincas page.

Modelling conventions:
* JSON body fields are `Option String` (absent vs present); JavaScript
  falsiness of a string field (`undefined`/`""`) is `strFalsy`.
* bcrypt is abstracted by a hash function `bhash : String → String`;
  `bcrypt.compare p h` is modelled as `bhash p = h` (idealised, saltless).
* jsonwebtoken is modelled by a `Jwt` record holding the signed payload,
  the signing secret and the expiry in seconds; wire serialisation is
  abstracted by a `decode : String → Option Jwt` parameter, and
  verification succeeds exactly when the secret of the token matches
  (expiry checking involves real time and is not modelled).
* Postgres is a `DB` record of row lists; `serial` ids come from a
  counter; `gen_random_uuid()` for users is passed in as `newId`.
  Timestamp columns (`created_at`/`updated_at`, `defaultNow()`) are
  omitted: they are real-time defaults with no bearing on the claims.
* Error payload details (zod error arrays) are abstracted to a marker
  constructor; error strings are kept verbatim from the source.
-/

namespace MiFincaManager

/-! ### JavaScript string helpers -/

/-- Boolean prefix test on character lists. -/
def listIsPrefixB : List Char → List Char → Bool
  | [], _ => true
  | _ :: _, [] => false
  | a :: as, b :: bs => a == b && listIsPrefixB as bs

/-- Boolean substring (infix) test on character lists. -/
def listContainsB (pat : List Char) : List Char → Bool
  | [] => pat.isEmpty
  | b :: bs => listIsPrefixB pat (b :: bs) || listContainsB pat bs

/-- JavaScript `s.includes(pat)`. -/
def strIncludes (s pat : String) : Bool :=
  listContainsB pat.data s.data

/-- Split a character list at every occurrence of `sep` (JavaScript
`split` on a one-character separator: adjacent separators yield empty
pieces, and the result is never empty). -/
def splitOnChar (sep : Char) : List Char → List (List Char)
  | [] => [[]]
  | c :: cs =>
      let r := splitOnChar sep cs
      if c == sep then [] :: r
      else
        match r with
        | [] => [[c]]
        | h :: t => (c :: h) :: t

/-- JavaScript `s.split(sep)` for a one-character separator. -/
def jsSplit (s : String) (sep : Char) : List String :=
  (splitOnChar sep s.data).map String.mk

/-- JavaScript `s.toLowerCase()` (per-character lowercasing). -/
def jsToLower (s : String) : String :=
  String.mk (s.data.map Char.toLower)

/-- JavaScript falsiness of an optional string field:
`undefined`/missing and the empty string are falsy. -/
def strFalsy : Option String → Bool
  | none => true
  | some s => s == ""

/-! ### JWT model -/

structure JwtPayload where
  id : String
  username : String
deriving DecidableEq, Repr

structure Jwt where
  payload : JwtPayload
  secret : String
  expiresInSecs : Nat
deriving DecidableEq, Repr

/-- Model of `jwt.sign(payload, secret, opts)` with an expiry. -/
def jwtSign (p : JwtPayload) (secret : String) (expSecs : Nat) : Jwt :=
  ⟨p, secret, expSecs⟩

/-- Model of `jwt.verify(token, secret, cb)`: the token string is decoded by the
abstract `decode`, and verification succeeds iff the token was signed
with the same secret. -/
def jwtVerifyStr (decode : String → Option Jwt) (secret tok : String) :
    Option JwtPayload :=
  match decode tok with
  | none => none
  | some t => if t.secret == secret then some t.payload else none

/-! ### Rows and database state (schema.ts tables used by the routes) -/

/-- A row of the `users` table (timestamp columns omitted). -/
structure UserRow where
  id : String
  username : String
  passwordHash : String
  email : String
  nombre : Option String
  telefono : Option String
deriving DecidableEq, Repr

/-- A row of the `animals` table (timestamp columns omitted). -/
structure AnimalRow where
  id : Nat
  userId : String
  codigoUnico : String
  nombre : Option String
  raza : Option String
  sexo : String
  fechaNacimiento : Option String
deriving DecidableEq, Repr

/-- Database state: the two tables the routes touch, plus the `serial`
sequence for `animals.id`. -/
structure DB where
  users : List UserRow
  animals : List AnimalRow
  animalSeq : Nat
deriving DecidableEq, Repr

/-! ### HTTP responses -/

inductive RespBody where
  | empty
  | errorMsg (msg : String)
  | validationErrors
  | tokenBody (t : Jwt)
  | userCreated (msg : String) (u : UserRow)
  | animalsList (l : List AnimalRow)
  | animalCreated (msg : String) (a : AnimalRow)
deriving DecidableEq, Repr

structure Resp where
  status : Nat
  body : RespBody
deriving DecidableEq, Repr

/-! ### Zod insert schemas (schema.ts) -/

/-- JSON body of `POST /api/signup` (fields the schema can look at). -/
structure SignupBody where
  username : Option String
  email : Option String
  password : Option String
deriving DecidableEq, Repr

/-- Parsed data of `insertUserSchema`. -/
structure InsertUser where
  username : String
  email : String
  password : String
deriving DecidableEq, Repr

/-- Parse function of `insertUserSchema.safeParse`: `username` and `email` are required
strings (picked from the table), `password` is a string of length ≥ 6. -/
def insertUserSchemaParse (b : SignupBody) : Option InsertUser :=
  match b.username, b.email, b.password with
  | some u, some e, some p =>
      if 6 ≤ p.length then some ⟨u, e, p⟩ else none
  | _, _, _ => none

/-- JSON body of `POST /api/animals`, including fields the schema omits
(`id`, `userId`) so that their irrelevance can be stated. -/
structure AnimalBody where
  id : Option Nat
  userId : Option String
  codigoUnico : Option String
  nombre : Option String
  raza : Option String
  sexo : Option String
  fechaNacimiento : Option String
deriving DecidableEq, Repr

/-- Parsed data of `insertAnimalSchema` (`id`, `userId`, timestamps
omitted by `.omit`; `codigoUnico` and `sexo` are `notNull`, the rest
nullable). -/
structure InsertAnimal where
  codigoUnico : String
  nombre : Option String
  raza : Option String
  sexo : String
  fechaNacimiento : Option String
deriving DecidableEq, Repr

/-- Parse function of `insertAnimalSchema.safeParse`: never reads `b.id` or `b.userId`. -/
def insertAnimalSchemaParse (b : AnimalBody) : Option InsertAnimal :=
  match b.codigoUnico, b.sexo with
  | some c, some s => some ⟨c, b.nombre, b.raza, s, b.fechaNacimiento⟩
  | _, _ => none

/-! ### Database operations -/

/-- Model of `db.insert(users).values(...)`: fails with the Postgres duplicate-key
message when the unique constraint on `username` is violated. -/
def dbInsertUser (db : DB) (u : UserRow) : Except String DB :=
  if db.users.any (fun v => v.username == u.username) then
    .error "duplicate key value violates unique constraint users_username_idx"
  else
    .ok { db with users := db.users ++ [u] }

/-- Model of `db.insert(animals).values(...)`: fails on a duplicate `codigoUnico`
or on a `userId` that references no `users` row. -/
def dbInsertAnimal (db : DB) (a : AnimalRow) : Except String DB :=
  if db.animals.any (fun r => r.codigoUnico == a.codigoUnico) then
    .error "duplicate key value violates unique constraint animals_codigo_unico_idx"
  else if !(db.users.any (fun u => u.id == a.userId)) then
    .error "insert or update on table animals violates foreign key constraint"
  else
    .ok { db with animals := db.animals ++ [a], animalSeq := db.animalSeq + 1 }

/-! ### Auth middleware -/

/-- Token extraction, `req.headers[authorization]` split on spaces, piece 1. -/
def extractToken (authHeader : Option String) : Option String :=
  match authHeader with
  | none => none
  | some h => (jsSplit h ' ').get? 1

/-- Middleware `authenticateToken`: 401 when the extracted token is
falsy, 403 when verification fails, otherwise hands the payload to the
route body. -/
def authenticateToken (decode : String → Option Jwt) (secret : String)
    (authHeader : Option String) : Except Resp JwtPayload :=
  match extractToken authHeader with
  | none => .error ⟨401, .errorMsg "Token requerido"⟩
  | some tok =>
      if tok == "" then .error ⟨401, .errorMsg "Token requerido"⟩
      else
        match jwtVerifyStr decode secret tok with
        | none => .error ⟨403, .errorMsg "Token inválido"⟩
        | some payload => .ok payload

/-! ### Route handlers -/

/-- Catch block of `POST /api/signup`: 409 when the error message mentions
a duplicate-key unique-constraint violation, 500 otherwise. -/
def signupCatch (msg : String) : Resp :=
  if strIncludes msg "duplicate key value violates unique constraint" then
    ⟨409, .errorMsg "El nombre de usuario o email ya existe."⟩
  else
    ⟨500, .errorMsg msg⟩

/-- Handler of `POST /api/signup`; `newId` stands for `gen_random_uuid()`. -/
def signup (bhash : String → String) (newId : String) (db : DB)
    (body : SignupBody) : Resp × DB :=
  match insertUserSchemaParse body with
  | none => (⟨400, .validationErrors⟩, db)
  | some d =>
      let row : UserRow := ⟨newId, d.username, bhash d.password, d.email, none, none⟩
      match dbInsertUser db row with
      | .ok db2 => (⟨201, .userCreated "Usuario creado" row⟩, db2)
      | .error msg => (signupCatch msg, db)

/-- Handler of `POST /api/login`. -/
def login (bhash : String → String) (secret : String) (db : DB)
    (username password : Option String) : Resp × DB :=
  if strFalsy username || strFalsy password then
    (⟨400, .errorMsg "Usuario y contraseña requeridos"⟩, db)
  else
    let uname := username.getD ""
    let pword := password.getD ""
    match db.users.find? (fun u => u.username == uname) with
    | none => (⟨401, .errorMsg "Credenciales inválidas"⟩, db)
    | some user =>
        if bhash pword == user.passwordHash then
          (⟨200, .tokenBody (jwtSign ⟨user.id, user.username⟩ secret 3600)⟩, db)
        else
          (⟨401, .errorMsg "Credenciales inválidas"⟩, db)

/-- Route body of `GET /api/animals` (after the middleware). -/
def getAnimalsHandler (db : DB) (payload : JwtPayload) : Resp × DB :=
  if payload.id == "" then
    (⟨401, .errorMsg "Usuario no autenticado."⟩, db)
  else
    (⟨200, .animalsList (db.animals.filter (fun a => a.userId == payload.id))⟩, db)

/-- Route body of `POST /api/animals` (after the middleware). -/
def postAnimalHandler (db : DB) (payload : JwtPayload) (body : AnimalBody) :
    Resp × DB :=
  if payload.id == "" then
    (⟨401, .errorMsg "Usuario no autenticado."⟩, db)
  else
    match insertAnimalSchemaParse body with
    | none => (⟨400, .validationErrors⟩, db)
    | some d =>
        let row : AnimalRow :=
          ⟨db.animalSeq, payload.id, d.codigoUnico, d.nombre, d.raza, d.sexo,
            d.fechaNacimiento⟩
        match dbInsertAnimal db row with
        | .ok db2 => (⟨201, .animalCreated "Animal creado exitosamente" row⟩, db2)
        | .error msg => (⟨500, .errorMsg msg⟩, db)

/-- Route `GET /api/animals`: middleware then route body. -/
def getAnimalsRoute (decode : String → Option Jwt) (secret : String)
    (authHeader : Option String) (db : DB) : Resp × DB :=
  match authenticateToken decode secret authHeader with
  | .error r => (r, db)
  | .ok payload => getAnimalsHandler db payload

/-- Route `POST /api/animals`: middleware then route body. -/
def postAnimalRoute (decode : String → Option Jwt) (secret : String)
    (authHeader : Option String) (db : DB) (body : AnimalBody) : Resp × DB :=
  match authenticateToken decode secret authHeader with
  | .error r => (r, db)
  | .ok payload => postAnimalHandler db payload body

/-! ### Schema metadata (foreign keys declared in schema.ts) -/

inductive FKAction where
  | cascade
  | noAction
deriving DecidableEq, Repr

structure ForeignKey where
  column : String
  refTable : String
  refColumn : String
  onDelete : FKAction
deriving DecidableEq, Repr

structure TableDef where
  name : String
  foreignKeys : List ForeignKey
deriving DecidableEq, Repr

def animalFK : ForeignKey := ⟨"animal_id", "animals", "id", .cascade⟩

def userFK : ForeignKey := ⟨"user_id", "users", "id", .cascade⟩

def usersTable : TableDef := ⟨"users", []⟩

def animalsTable : TableDef := ⟨"animals", [⟨"user_id", "users", "id", .cascade⟩]⟩

def weightRecordsTable : TableDef := ⟨"weight_records", [animalFK, userFK]⟩

def healthRecordsTable : TableDef := ⟨"health_records", [animalFK, userFK]⟩

def vaccinationsTable : TableDef := ⟨"vaccinations", [animalFK, userFK]⟩

def pestControlTable : TableDef := ⟨"pest_control", [animalFK, userFK]⟩

def reproductionTable : TableDef := ⟨"reproduction", [animalFK, userFK]⟩

def feedingTable : TableDef := ⟨"feeding", [animalFK, userFK]⟩

def traceabilityTable : TableDef := ⟨"traceability", [animalFK, userFK]⟩

/-- Table `lotes`: `fincaId` carries no reference in the source; the only
foreign key is `user_id`. -/
def lotesTable : TableDef := ⟨"lotes", [userFK]⟩

def loteAnimalsTable : TableDef :=
  ⟨"lote_animals", [⟨"lote_id", "lotes", "id", .cascade⟩, animalFK, userFK]⟩

/-- The nine tables dependent on `users`/`animals` (every table of
schema.ts other than `users` and `animals` themselves). -/
def dependentTables : List TableDef :=
  [weightRecordsTable, healthRecordsTable, vaccinationsTable, pestControlTable,
   reproductionTable, feedingTable, traceabilityTable, lotesTable,
   loteAnimalsTable]

/-- The table declares a cascade foreign key from `col` to `refT.id`. -/
def hasCascadeFK (t : TableDef) (col refT : String) : Bool :=
  t.foreignKeys.any (fun fk =>
    fk.column == col && fk.refTable == refT && fk.refColumn == "id" &&
      fk.onDelete == FKAction.cascade)

/-! ### Fincas page (client): derived `filteredFincas` -/

structure Finca where
  id : Nat
  name : String
  location : String
deriving DecidableEq, Repr

/-- The filter predicate of the Fincas page:
`finca.name.toLowerCase().includes(term.toLowerCase()) ||
 finca.location.toLowerCase().includes(term.toLowerCase())`. -/
def fincaMatches (searchTerm : String) (finca : Finca) : Bool :=
  strIncludes (jsToLower finca.name) (jsToLower searchTerm) ||
    strIncludes (jsToLower finca.location) (jsToLower searchTerm)

/-- Derived list `filteredFincas = fincas.filter(...)`. -/
def filteredFincas (fincas : List Finca) (searchTerm : String) : List Finca :=
  fincas.filter (fincaMatches searchTerm)

/-! ### Concrete fixtures for witnesses and counterexamples -/

/-- Concrete model of `bcrypt.hash(·, 10)` for witness instances. -/
def bhash0 : String → String := fun s => "hashed:" ++ s

def secret0 : String := "topsecret"

def payload0 : JwtPayload := ⟨"user-1", "alice"⟩

def jwtGood : Jwt := ⟨payload0, secret0, 3600⟩

def jwtBad : Jwt := ⟨payload0, "othersecret", 3600⟩

/-- Concrete token decoder for witness instances. -/
def decode0 : String → Option Jwt := fun s =>
  if s == "tok-good" then some jwtGood
  else if s == "tok-bad" then some jwtBad
  else none

def user0 : UserRow := ⟨"user-1", "alice", bhash0 "secret1", "alice@x.com", none, none⟩

def animal0 : AnimalRow := ⟨1, "user-1", "COW-001", none, none, "F", none⟩

def animal1 : AnimalRow := ⟨2, "user-2", "COW-002", none, none, "M", none⟩

def db0 : DB := ⟨[user0], [animal0, animal1], 3⟩

def dbEmpty : DB := ⟨[], [], 1⟩

/-- A stored user whose `username` is the empty string (reachable: the
zod schema accepts an empty username at signup). -/
def userEmptyName : UserRow := ⟨"user-7", "", bhash0 "secret7", "b@x.com", none, none⟩

def dbC2 : DB := ⟨[userEmptyName], [], 1⟩

def signupBody0 : SignupBody := ⟨some "bob", some "bob@x.com", some "secret8"⟩

def shortPwBody : SignupBody := ⟨some "bob", some "bob@x.com", some "12345"⟩

def dupBody : SignupBody := ⟨some "alice", some "other@x.com", some "secret9"⟩

/-- An animal-creation body that smuggles a foreign `userId`. -/
def animalBody0 : AnimalBody :=
  ⟨none, some "user-2", some "COW-003", none, none, some "M", none⟩

/-! ### Helper lemmas -/

theorem listContainsB_nil (l : List Char) : listContainsB [] l = true := by
  cases l <;> simp [listContainsB, listIsPrefixB]

theorem strIncludes_empty (s : String) : strIncludes s "" = true := by
  simpa [strIncludes] using listContainsB_nil s.data

theorem fincaMatches_empty (f : Finca) : fincaMatches "" f = true := by
  simp [fincaMatches, jsToLower, strIncludes_empty]

/-- The middleware succeeds exactly on a non-falsy token that verifies. -/
theorem authenticateToken_ok (decode : String → Option Jwt)
    (secret : String) (authHeader : Option String) (tok : String)
    (payload : JwtPayload) (htok : extractToken authHeader = some tok)
    (hne : tok ≠ "") (hver : jwtVerifyStr decode secret tok = some payload) :
    authenticateToken decode secret authHeader = .ok payload := by
  simp [authenticateToken, htok, hne, hver]

/-! ### Claim theorems -/

/-- C10: `filteredFincas` is the order-preserving sublist of `fincas`
whose lowercased name or location contains the lowercased search term;
with the empty search term it is the whole list. -/
theorem filteredFincas_spec (fincas : List Finca) (searchTerm : String) :
    List.Sublist (filteredFincas fincas searchTerm) fincas ∧
    (∀ f : Finca,
      f ∈ filteredFincas fincas searchTerm ↔
        f ∈ fincas ∧
          (strIncludes (jsToLower f.name) (jsToLower searchTerm) = true ∨
            strIncludes (jsToLower f.location) (jsToLower searchTerm) = true)) ∧
    filteredFincas fincas "" = fincas := by
  refine ⟨List.filter_sublist fincas, ?_, ?_⟩
  · intro f
    simp [filteredFincas, List.mem_filter, fincaMatches]
  · exact List.filter_eq_self.mpr (fun f _ => fincaMatches_empty f)

/-- C7 counterexample: the nine dependent tables of the schema do NOT all
carry an `animal_id → animals.id` cascade foreign key — `lotes` has only
the `user_id` one. -/
theorem dependent_tables_missing_animal_fk :
    dependentTables.length = 9 ∧
    lotesTable ∈ dependentTables ∧
    hasCascadeFK lotesTable "user_id" "users" = true ∧
    hasCascadeFK lotesTable "animal_id" "animals" = false ∧
    (dependentTables.all (fun t =>
      hasCascadeFK t "animal_id" "animals" &&
        hasCascadeFK t "user_id" "users")) = false := by
  decide

/-- C7 (amended): all nine dependent tables reference `users.id` via a
cascading `user_id`, and the eight tables other than `lotes` also
reference `animals.id` via a cascading `animal_id`. -/
theorem dependent_tables_cascade_fks :
    dependentTables.length = 9 ∧
    (dependentTables.all (fun t => hasCascadeFK t "user_id" "users")) = true ∧
    ((dependentTables.filter (fun t => !(t.name == "lotes"))).all
      (fun t => hasCascadeFK t "animal_id" "animals")) = true ∧
    ((dependentTables.filter (fun t => !(t.name == "lotes"))).length = 8) := by
  decide

/-- C1: on both animals routes, a request whose Authorization header
yields no token (absent header, no piece after the first space, or an
empty piece) gets 401 with the database untouched; a token that fails
verification against the secret gets 403 with the database untouched;
and a verifying token reaches the route body. -/
theorem animals_routes_auth_gate (decode : String → Option Jwt)
    (secret : String) (authHeader : Option String) (db : DB)
    (body : AnimalBody) :
    (extractToken authHeader = none ∨ extractToken authHeader = some "" →
      getAnimalsRoute decode secret authHeader db =
        (⟨401, .errorMsg "Token requerido"⟩, db) ∧
      postAnimalRoute decode secret authHeader db body =
        (⟨401, .errorMsg "Token requerido"⟩, db)) ∧
    (∀ tok : String, extractToken authHeader = some tok → tok ≠ "" →
      jwtVerifyStr decode secret tok = none →
      getAnimalsRoute decode secret authHeader db =
        (⟨403, .errorMsg "Token inválido"⟩, db) ∧
      postAnimalRoute decode secret authHeader db body =
        (⟨403, .errorMsg "Token inválido"⟩, db)) ∧
    (∀ (tok : String) (payload : JwtPayload),
      extractToken authHeader = some tok → tok ≠ "" →
      jwtVerifyStr decode secret tok = some payload →
      getAnimalsRoute decode secret authHeader db =
        getAnimalsHandler db payload ∧
      postAnimalRoute decode secret authHeader db body =
        postAnimalHandler db payload body) := by
  refine ⟨?_, ?_, ?_⟩
  · rintro (h | h) <;>
      simp [getAnimalsRoute, postAnimalRoute, authenticateToken, h]
  · intro tok htok hne hver
    simp [getAnimalsRoute, postAnimalRoute, authenticateToken, htok, hne, hver]
  · intro tok payload htok hne hver
    simp [getAnimalsRoute, postAnimalRoute, authenticateToken, htok, hne, hver]

/-- C1 witness: concrete requests exercising the 401, 403 and
pass-through branches on both routes. -/
theorem animals_routes_auth_gate_witness :
    (getAnimalsRoute decode0 secret0 none db0 =
        (⟨401, .errorMsg "Token requerido"⟩, db0) ∧
      postAnimalRoute decode0 secret0 none db0 animalBody0 =
        (⟨401, .errorMsg "Token requerido"⟩, db0)) ∧
    (getAnimalsRoute decode0 secret0 (some "Bearer tok-bad") db0 =
        (⟨403, .errorMsg "Token inválido"⟩, db0) ∧
      postAnimalRoute decode0 secret0 (some "Bearer tok-bad") db0 animalBody0 =
        (⟨403, .errorMsg "Token inválido"⟩, db0)) ∧
    (getAnimalsRoute decode0 secret0 (some "Bearer tok-good") db0 =
        getAnimalsHandler db0 payload0 ∧
      postAnimalRoute decode0 secret0 (some "Bearer tok-good") db0 animalBody0 =
        postAnimalHandler db0 payload0 animalBody0) :=
  ⟨(animals_routes_auth_gate decode0 secret0 none db0 animalBody0).1
      (Or.inl (by decide)),
   (animals_routes_auth_gate decode0 secret0 (some "Bearer tok-bad") db0
        animalBody0).2.1 "tok-bad" (by decide) (by decide) (by decide),
   (animals_routes_auth_gate decode0 secret0 (some "Bearer tok-good") db0
        animalBody0).2.2 "tok-good" payload0 (by decide) (by decide) (by decide)⟩

/-- C6: for an authenticated `GET /api/animals` with a non-empty token
id, the 200 body is exactly the animals whose `userId` equals the
id in the token: nobody elses rows, and every row of the requester. -/
theorem getAnimals_exactly_own (decode : String → Option Jwt)
    (secret tok : String) (authHeader : Option String) (db : DB)
    (payload : JwtPayload) (htok : extractToken authHeader = some tok)
    (hne : tok ≠ "") (hver : jwtVerifyStr decode secret tok = some payload)
    (hid : payload.id ≠ "") :
    getAnimalsRoute decode secret authHeader db =
      (⟨200, .animalsList
          (db.animals.filter (fun a => a.userId == payload.id))⟩, db) ∧
    ∀ a : AnimalRow,
      a ∈ db.animals.filter (fun a => a.userId == payload.id) ↔
        a ∈ db.animals ∧ a.userId = payload.id := by
  constructor
  · rw [getAnimalsRoute, authenticateToken_ok decode secret authHeader tok
      payload htok hne hver]
    simp [getAnimalsHandler, hid]
  · intro a
    simp [List.mem_filter]

/-- C6 witness: a concrete request whose response holds the animal of the
requester and not that of the other user. -/
theorem getAnimals_exactly_own_witness :
    getAnimalsRoute decode0 secret0 (some "Bearer tok-good") db0 =
      (⟨200, .animalsList
          (db0.animals.filter (fun a => a.userId == payload0.id))⟩, db0) ∧
    (animal0 ∈ db0.animals.filter (fun a => a.userId == payload0.id) ↔
      animal0 ∈ db0.animals ∧ animal0.userId = payload0.id) :=
  ⟨(getAnimals_exactly_own decode0 secret0 "tok-good"
      (some "Bearer tok-good") db0 payload0 (by decide) (by decide)
      (by decide) (by decide)).1,
   (getAnimals_exactly_own decode0 secret0 "tok-good"
      (some "Bearer tok-good") db0 payload0 (by decide) (by decide)
      (by decide) (by decide)).2 animal0⟩

/-- C8: `POST /api/animals` ignores any body-supplied `userId` — two
requests differing only in that field produce identical outcomes — and
on success the `userId` of the inserted row is the id of the verified token. -/
theorem postAnimal_userId_from_token (decode : String → Option Jwt)
    (secret : String) (authHeader : Option String) (db : DB)
    (payload : JwtPayload) (body : AnimalBody) :
    (∀ x : Option Nat, ∀ y : Option String,
      postAnimalRoute decode secret authHeader db
          { body with id := x, userId := y } =
        postAnimalRoute decode secret authHeader db body) ∧
    (∀ (tok : String) (d : InsertAnimal),
      extractToken authHeader = some tok → tok ≠ "" →
      jwtVerifyStr decode secret tok = some payload →
      payload.id ≠ "" →
      insertAnimalSchemaParse body = some d →
      (∀ r ∈ db.animals, r.codigoUnico ≠ d.codigoUnico) →
      (∃ u ∈ db.users, u.id = payload.id) →
      ∃ row : AnimalRow,
        postAnimalRoute decode secret authHeader db body =
          (⟨201, .animalCreated "Animal creado exitosamente" row⟩,
           { db with animals := db.animals ++ [row],
                     animalSeq := db.animalSeq + 1 }) ∧
        row.userId = payload.id) := by
  constructor
  · intro x y
    rfl
  · intro tok d htok hne hver hid hparse hfresh hfk
    refine ⟨⟨db.animalSeq, payload.id, d.codigoUnico, d.nombre, d.raza,
      d.sexo, d.fechaNacimiento⟩, ?_, rfl⟩
    rw [postAnimalRoute, authenticateToken_ok decode secret authHeader tok
      payload htok hne hver]
    have hdup : (db.animals.any (fun r => r.codigoUnico == d.codigoUnico))
        = false := by
      simp only [List.any_eq_false]
      intro r hr
      simpa using hfresh r hr
    have huser : (db.users.any (fun u => u.id == payload.id)) = true := by
      obtain ⟨u, hu, hu2⟩ := hfk
      simp only [List.any_eq_true]
      exact ⟨u, hu, by simpa using hu2⟩
    simp [postAnimalHandler, hid, hparse, dbInsertAnimal, hdup, huser]

/-- C8 witness: a body smuggling `userId = "user-2"` yields the same
outcome as one without it, and the row created for the token of
`user-1` belongs to `user-1`. -/
theorem postAnimal_userId_from_token_witness :
    (postAnimalRoute decode0 secret0 (some "Bearer tok-good") db0
        { animalBody0 with id := some 9, userId := some "user-2" } =
      postAnimalRoute decode0 secret0 (some "Bearer tok-good") db0
        animalBody0) ∧
    (∃ row : AnimalRow,
      postAnimalRoute decode0 secret0 (some "Bearer tok-good") db0
          animalBody0 =
        (⟨201, .animalCreated "Animal creado exitosamente" row⟩,
         { db0 with animals := db0.animals ++ [row],
                    animalSeq := db0.animalSeq + 1 }) ∧
      row.userId = payload0.id) :=
  ⟨(postAnimal_userId_from_token decode0 secret0 (some "Bearer tok-good")
      db0 payload0 animalBody0).1 (some 9) (some "user-2"),
   (postAnimal_userId_from_token decode0 secret0 (some "Bearer tok-good")
      db0 payload0 animalBody0).2 "tok-good"
      ⟨"COW-003", none, none, "M", none⟩ (by decide) (by decide) (by decide)
      (by decide) (by decide) (by decide)
      ⟨user0, by decide, by decide⟩⟩

/-- C3: a signup body rejected by `insertUserSchema` — in particular one
with a password shorter than 6 characters, or a missing username or
email — gets 400 and inserts nothing. -/
theorem signup_validation_failure (bhash : String → String)
    (newId : String) (db : DB) (body : SignupBody) :
    (insertUserSchemaParse body = none →
      signup bhash newId db body = (⟨400, .validationErrors⟩, db)) ∧
    (∀ p : String, body.password = some p → p.length < 6 →
      insertUserSchemaParse body = none) ∧
    (body.password = none → insertUserSchemaParse body = none) ∧
    (body.username = none → insertUserSchemaParse body = none) ∧
    (body.email = none → insertUserSchemaParse body = none) := by
  refine ⟨?_, ?_, ?_, ?_, ?_⟩
  · intro h
    simp [signup, h]
  · intro p hp hlen
    rcases body with ⟨u, e, pw⟩
    cases u <;> cases e <;> simp_all [insertUserSchemaParse]
  · intro h
    rcases body with ⟨u, e, pw⟩
    cases u <;> cases e <;> simp_all [insertUserSchemaParse]
  · intro h
    rcases body with ⟨u, e, pw⟩
    simp_all [insertUserSchemaParse]
  · intro h
    rcases body with ⟨u, e, pw⟩
    cases u <;> simp_all [insertUserSchemaParse]

/-- C3 witness: a 5-character password is rejected with 400 and the
stored users are unchanged. -/
theorem signup_validation_failure_witness :
    signup bhash0 "id-9" db0 shortPwBody = (⟨400, .validationErrors⟩, db0) ∧
    insertUserSchemaParse shortPwBody = none ∧
    insertUserSchemaParse ⟨none, some "b@x.com", some "secret8"⟩ = none :=
  ⟨(signup_validation_failure bhash0 "id-9" db0 shortPwBody).1 (by decide),
   (signup_validation_failure bhash0 "id-9" db0 shortPwBody).2.1 "12345"
      rfl (by decide),
   (signup_validation_failure bhash0 "id-9" db0
      ⟨none, some "b@x.com", some "secret8"⟩).2.2.2.1 rfl⟩

/-- C4: a valid signup body whose username is already stored gets 409
and adds no row, and an insert failure whose message does not mention a
duplicate-key unique-constraint violation yields 500. -/
theorem signup_duplicate_username (bhash : String → String)
    (newId : String) (db : DB) (body : SignupBody) (d : InsertUser)
    (hparse : insertUserSchemaParse body = some d)
    (hdup : ∃ u ∈ db.users, u.username = d.username) :
    signup bhash newId db body =
      (⟨409, .errorMsg "El nombre de usuario o email ya existe."⟩, db) ∧
    ∀ msg : String,
      strIncludes msg "duplicate key value violates unique constraint"
          = false →
      signupCatch msg = ⟨500, .errorMsg msg⟩ := by
  constructor
  · have hany : (db.users.any (fun v => v.username == d.username)) = true := by
      obtain ⟨u, hu, hu2⟩ := hdup
      simp only [List.any_eq_true]
      exact ⟨u, hu, by simpa using hu2⟩
    simp [signup, hparse, dbInsertUser, hany, signupCatch]
    decide
  · intro msg h
    simp [signupCatch, h]

/-- C4 witness: signing up again as the stored `alice` yields 409 with
no new row; an unrelated failure message yields 500. -/
theorem signup_duplicate_username_witness :
    signup bhash0 "id-9" db0 dupBody =
      (⟨409, .errorMsg "El nombre de usuario o email ya existe."⟩, db0) ∧
    signupCatch "connection refused" =
      ⟨500, .errorMsg "connection refused"⟩ :=
  ⟨(signup_duplicate_username bhash0 "id-9" db0 dupBody
      ⟨"alice", "other@x.com", "secret9"⟩ (by decide)
      ⟨user0, by decide, by decide⟩).1,
   (signup_duplicate_username bhash0 "id-9" db0 dupBody
      ⟨"alice", "other@x.com", "secret9"⟩ (by decide)
      ⟨user0, by decide, by decide⟩).2 "connection refused" (by decide)⟩

/-- C9: a successful signup answers 201 with the full inserted users
row — its `passwordHash` column included — the database gains exactly
that row, and the password itself is stored only through `bhash`. -/
theorem signup_success_returns_full_row (bhash : String → String)
    (newId : String) (db : DB) (body : SignupBody) (d : InsertUser)
    (hparse : insertUserSchemaParse body = some d)
    (hfresh : ∀ u ∈ db.users, u.username ≠ d.username) :
    signup bhash newId db body =
      (⟨201, .userCreated "Usuario creado"
          ⟨newId, d.username, bhash d.password, d.email, none, none⟩⟩,
       { db with users := db.users ++
          [⟨newId, d.username, bhash d.password, d.email, none, none⟩] }) ∧
    (bhash d.password ≠ d.password →
      ∀ u ∈ (signup bhash newId db body).2.users,
        u ∈ db.users ∨ u.passwordHash ≠ d.password) := by
  have hany : (db.users.any (fun v => v.username == d.username)) = false := by
    simp only [List.any_eq_false]
    intro u hu
    simpa using hfresh u hu
  have hmain : signup bhash newId db body =
      (⟨201, .userCreated "Usuario creado"
          ⟨newId, d.username, bhash d.password, d.email, none, none⟩⟩,
       { db with users := db.users ++
          [⟨newId, d.username, bhash d.password, d.email, none, none⟩] }) := by
    simp [signup, hparse, dbInsertUser, hany]
  refine ⟨hmain, ?_⟩
  intro hne u hu
  rw [hmain] at hu
  simp only [List.mem_append, List.mem_singleton] at hu
  rcases hu with hu | hu
  · exact Or.inl hu
  · right
    rw [hu]
    exact hne

/-- C9 witness: `bob` signs up; the 201 body carries the stored row with
`passwordHash = bhash0 "secret8"`, and no stored row holds the
plaintext. -/
theorem signup_success_returns_full_row_witness :
    signup bhash0 "id-8" db0 signupBody0 =
      (⟨201, .userCreated "Usuario creado"
          ⟨"id-8", "bob", bhash0 "secret8", "bob@x.com", none, none⟩⟩,
       { db0 with users := db0.users ++
          [⟨"id-8", "bob", bhash0 "secret8", "bob@x.com", none, none⟩] }) ∧
    (user0 ∈ db0.users ∨ user0.passwordHash ≠ "secret8") :=
  ⟨(signup_success_returns_full_row bhash0 "id-8" db0 signupBody0
      ⟨"bob", "bob@x.com", "secret8"⟩ (by decide)
      (by decide)).1,
   (signup_success_returns_full_row bhash0 "id-8" db0 signupBody0
      ⟨"bob", "bob@x.com", "secret8"⟩ (by decide) (by decide)).2
      (by decide) user0 (by decide)⟩

/-- C2 counterexample: a stored user with the empty username (which the
signup schema admits) and a correct password gets 400, not the claimed
200-with-token, because `if (!username || !password)` treats the empty
string as absent. -/
theorem login_match_counterexample :
    userEmptyName ∈ dbC2.users ∧
    bhash0 "secret7" = userEmptyName.passwordHash ∧
    (login bhash0 secret0 dbC2 (some userEmptyName.username)
        (some "secret7")).1.status = 400 ∧
    (login bhash0 secret0 dbC2 (some userEmptyName.username)
        (some "secret7")).1.status ≠ 200 := by
  decide

/-- C2 (amended): for a stored user looked up by a non-empty username,
a non-empty password that bcrypt-compares equal yields 200 with a token
signed with the secret whose payload is exactly the id and
username and which expires in 3600 seconds. -/
theorem login_success_issues_token (bhash : String → String)
    (secret : String) (db : DB) (u : UserRow) (p : String)
    (hfind : db.users.find? (fun r => r.username == u.username) = some u)
    (hu : u.username ≠ "") (hp : p ≠ "")
    (hpw : bhash p = u.passwordHash) :
    login bhash secret db (some u.username) (some p) =
      (⟨200, .tokenBody ⟨⟨u.id, u.username⟩, secret, 3600⟩⟩, db) := by
  simp [login, strFalsy, hu, hp, hfind, hpw, jwtSign]

/-- C2 witness: `alice` logs in with her password and receives the
signed one-hour token for her id. -/
theorem login_success_issues_token_witness :
    login bhash0 secret0 db0 (some "alice") (some "secret1") =
      (⟨200, .tokenBody ⟨⟨"user-1", "alice"⟩, secret0, 3600⟩⟩, db0) :=
  login_success_issues_token bhash0 secret0 db0 user0 "secret1"
    (by decide) (by decide) (by decide) (by decide)

/-- C5 counterexample: a request carrying `username: ""` (present, not
absent) against a store with no such user gets 400, where the claimed
"otherwise" branch predicts 401. -/
theorem login_empty_field_counterexample :
    (some "" ≠ (none : Option String)) ∧
    dbEmpty.users = [] ∧
    (login bhash0 secret0 dbEmpty (some "") (some "pass123")).1.status
        = 400 ∧
    (login bhash0 secret0 dbEmpty (some "") (some "pass123")).1.status
        ≠ 401 := by
  decide

/-- C5 (amended): a login request whose username or password is absent
or empty gets 400; otherwise an unknown username and a failed bcrypt
comparison both get 401 with the identical error payload; the stored
state is unchanged throughout. -/
theorem login_failure_responses (bhash : String → String)
    (secret : String) (db : DB) (username password : Option String) :
    ((strFalsy username || strFalsy password) = true →
      login bhash secret db username password =
        (⟨400, .errorMsg "Usuario y contraseña requeridos"⟩, db)) ∧
    (strFalsy username = false → strFalsy password = false →
      db.users.find? (fun r => r.username == username.getD "") = none →
      login bhash secret db username password =
        (⟨401, .errorMsg "Credenciales inválidas"⟩, db)) ∧
    (∀ u : UserRow, strFalsy username = false → strFalsy password = false →
      db.users.find? (fun r => r.username == username.getD "") = some u →
      bhash (password.getD "") ≠ u.passwordHash →
      login bhash secret db username password =
        (⟨401, .errorMsg "Credenciales inválidas"⟩, db)) := by
  refine ⟨?_, ?_, ?_⟩
  · intro h
    simp [login, h]
  · intro hu hp hfind
    simp [login, hu, hp, hfind]
  · intro u hu hp hfind hpw
    simp [login, hu, hp, hfind, hpw]

/-- C5 witness: the concrete 400 (missing password), 401 (unknown user)
and 401 (wrong password) responses coincide on the error payload. -/
theorem login_failure_responses_witness :
    login bhash0 secret0 db0 (some "alice") none =
      (⟨400, .errorMsg "Usuario y contraseña requeridos"⟩, db0) ∧
    login bhash0 secret0 db0 (some "mallory") (some "pass123") =
      (⟨401, .errorMsg "Credenciales inválidas"⟩, db0) ∧
    login bhash0 secret0 db0 (some "alice") (some "wrongpass") =
      (⟨401, .errorMsg "Credenciales inválidas"⟩, db0) :=
  ⟨(login_failure_responses bhash0 secret0 db0 (some "alice") none).1
      (by decide),
   (login_failure_responses bhash0 secret0 db0 (some "mallory")
      (some "pass123")).2.1 (by decide) (by decide) (by decide),
   (login_failure_responses bhash0 secret0 db0 (some "alice")
      (some "wrongpass")).2.2 user0 (by decide) (by decide) (by decide)
      (by decide)⟩

end MiFincaManager
